import Mathlib

/-!
Shallow embedding of `app.py` (ytmapi): a Flask service that wraps the
YTMusic metadata client and resolves playable stream URLs through a fixed
list of Piped mirror instances, with a TTL-cache decorator around each
boundary operation.

Conventions of the embedding:
* machine time is an abstract `Nat` clock; `cachetools.TTLCache` stores an
  absolute expiry `insertTime + ttl` per entry and treats an entry as
  expired exactly when `expires < now` (modelled from the spec and the
  documented cachetools semantics, since the library is a third-party
  dependency not part of this repository);
* network fetch outcomes are explicit data: a per-instance outcome list in
  registry order (`asyncio.gather` returns results in the order the tasks
  were passed, independent of completion order), with `none` standing for
  an error / timeout / non-200 response already absorbed by
  `get_streams_data_async`;
* `random.choice` is modelled as uniform index selection driven by a seed,
  `xs.get (seed % xs.length)`;
* Python argument values that the app passes to cached operations are
  strings and ints, modelled by `PyVal`; `str(...)` of tuples and of lists
  of keyword items is modelled by Python-faithful repr functions.
-/

namespace Ytmapi

/-- A Python argument value as passed to the cached operations of `app.py`
(the app only passes strings and ints). -/
inductive PyVal where
  | vstr (s : String)
  | vint (n : Int)
deriving DecidableEq, Repr

/-- Auxiliary injection of `PyVal` into a linearly ordered type, used to
give keyword-argument items the total order that Python's `sorted` uses on
`(name, value)` tuples. (Python orders tuples lexicographically; for a
keyword-argument mapping the names are distinct, so the value order is
never actually consulted and any total order on values is faithful.) -/
def PyVal.encode : PyVal → Lex (String ⊕ Int)
  | .vstr s => toLex (Sum.inl s)
  | .vint n => toLex (Sum.inr n)

theorem PyVal.encode_injective : Function.Injective PyVal.encode := by
  intro a b h
  cases a <;> cases b <;> simp [PyVal.encode] at h <;> simp [h]

instance : LinearOrder PyVal := LinearOrder.lift' PyVal.encode PyVal.encode_injective

/-- The order in which Python's `sorted(kwargs.items())` arranges keyword
items: lexicographic on the `(name, value)` pair, name first. -/
def kwLe (a b : String × PyVal) : Prop := toLex a ≤ toLex b

instance : IsTotal (String × PyVal) kwLe := ⟨fun a b => le_total (toLex a) (toLex b)⟩

instance : IsTrans (String × PyVal) kwLe := ⟨fun _ _ _ h₁ h₂ => le_trans h₁ h₂⟩

instance : IsAntisymm (String × PyVal) kwLe :=
  ⟨fun _ _ h₁ h₂ => toLex.injective (le_antisymm h₁ h₂)⟩

instance : DecidableRel kwLe := fun a b => inferInstanceAs (Decidable (toLex a ≤ toLex b))

/-- Python `repr` of one argument value (string escaping inside the quotes
is not modelled; the app's identifiers contain no quotes). -/
def PyVal.pyRepr : PyVal → String
  | .vstr s => "\x27" ++ s ++ "\x27"
  | .vint n => toString n

/-- Python `str` of the positional-argument tuple `args`, including the
trailing comma of a one-element tuple. -/
def pyReprTuple (args : List PyVal) : String :=
  match args with
  | [] => "()"
  | [a] => "(" ++ a.pyRepr ++ ",)"
  | _ => "(" ++ String.intercalate ", " (args.map PyVal.pyRepr) ++ ")"

/-- Python `repr` of one keyword item `(name, value)`. -/
def pyReprItem (p : String × PyVal) : String :=
  "(" ++ "\x27" ++ p.1 ++ "\x27" ++ ", " ++ p.2.pyRepr ++ ")"

/-- Python `str` of the list `sorted(kwargs.items())`. -/
def pyReprItemList (l : List (String × PyVal)) : String :=
  "[" ++ String.intercalate ", " (l.map pyReprItem) ++ "]"

/-- `sorted(kwargs.items())`. -/
def sortedKwargs (kwargs : List (String × PyVal)) : List (String × PyVal) :=
  List.insertionSort kwLe kwargs

/-- `cache_key` of app.py: `str(args) + str(sorted(kwargs.items()))`. -/
def cache_key (args : List PyVal) (kwargs : List (String × PyVal)) : String :=
  pyReprTuple args ++ pyReprItemList (sortedKwargs kwargs)

/-- A `cachetools.TTLCache` instance. Modelled from the spec: the library
is a third-party dependency, so only the behaviour the spec relies on is
embedded — an entry maps a key to a value plus an absolute expiry
timestamp `insertTime + ttl`, and an entry is served only while
`now ≤ expiry`. The size bound `maxsize` is carried as configuration; no
claim exercises eviction. -/
structure TTLCache (α : Type) where
  maxsize : Nat
  ttl : Nat
  entries : List (String × α × Nat)

/-- Raw lookup of a key's entry (value and expiry), ignoring expiry. -/
def TTLCache.lookup {α : Type} (c : TTLCache α) (k : String) : Option (α × Nat) :=
  (c.entries.find? (fun e => e.1 == k)).map (fun e => e.2)

/-- `key in cache` at time `t`: present and not yet expired. -/
def TTLCache.containsAt {α : Type} (c : TTLCache α) (k : String) (t : Nat) : Bool :=
  match c.lookup k with
  | some (_, e) => decide (t ≤ e)
  | none => false

/-- `cache[key] = value` at time `t`: (re)insert with expiry `t + ttl`. -/
def TTLCache.insertAt {α : Type} (c : TTLCache α) (k : String) (v : α) (t : Nat) : TTLCache α :=
  ⟨c.maxsize, c.ttl, (k, v, t + c.ttl) :: c.entries.filter (fun e => !(e.1 == k))⟩

/-- The `cache_with_ttl` wrapper of app.py around a fallible operation
`f` of positional arguments `args` and keyword arguments `kwargs`,
invoked at time `t`:
`key = cache_key(*args, **kwargs); if key in cache: return cache[key];`
`result = func(*args, **kwargs); cache[key] = result; return result`.
A raised exception is an `Except.error`: it propagates and the store line
is never reached. -/
def cachedCall {α ε : Type} (cache : TTLCache α)
    (f : List PyVal → List (String × PyVal) → Except ε α)
    (args : List PyVal) (kwargs : List (String × PyVal)) (t : Nat) :
    Except ε α × TTLCache α :=
  match cache.lookup (cache_key args kwargs) with
  | some (v, e) =>
    if t ≤ e then (Except.ok v, cache)
    else
      match f args kwargs with
      | Except.ok r => (Except.ok r, cache.insertAt (cache_key args kwargs) r t)
      | Except.error err => (Except.error err, cache)
  | none =>
    match f args kwargs with
    | Except.ok r => (Except.ok r, cache.insertAt (cache_key args kwargs) r t)
    | Except.error err => (Except.error err, cache)

/-- The static Mirror Registry `PIPED_INSTANCES` of app.py. -/
def PIPED_INSTANCES : List String :=
  ["https://pipedapi.nosebs.ru",
   "https://piped-api.privacy.com.de",
   "https://pipedapi.adminforge.de",
   "https://api.piped.yt"]

/-- One audio variant of a Piped stream descriptor (the fields the app
reads: `url`, `mimeType`, `quality`). -/
structure AudioStream where
  url : String
  mimeType : String
  quality : String
deriving DecidableEq, Repr

/-- One video variant (passed through verbatim by `/api/streams`). -/
structure VideoStream where
  url : String
  mimeType : String
  quality : String
deriving DecidableEq, Repr

/-- The JSON object returned by `GET instance/streams/videoId`, restricted
to the keys the handlers read; an absent key is `none` (the handlers use
`key in result` and `result.get(key, default)`). -/
structure StreamsData where
  audioStreams : Option (List AudioStream)
  videoStreams : Option (List VideoStream)
  title : Option String
  description : Option String
  uploader : Option String
  uploaderUrl : Option String
deriving DecidableEq, Repr

/-- Python truthiness of the parsed JSON dict (`if result:`): true iff the
dict has at least one key, modelled over the keys the handlers read. -/
def StreamsData.truthy (d : StreamsData) : Bool :=
  d.audioStreams.isSome || d.videoStreams.isSome || d.title.isSome ||
  d.description.isSome || d.uploader.isSome || d.uploaderUrl.isSome

/-- Response body of a handler (`jsonify(...)` payloads). -/
inductive ApiBody where
  | errMsg (msg : String)
  | errMsgWith (err msg : String)
  | ytPayload (payload : String)
  | audio (audioUrl mimeType quality source : String)
  | streams (videoStreams : List VideoStream) (audioStreams : List AudioStream)
      (source title description uploader uploaderUrl : String)
deriving DecidableEq, Repr

/-- An HTTP response: status code plus JSON body. -/
structure HttpResponse where
  status : Nat
  body : ApiBody
deriving DecidableEq, Repr

/-- The `for (result, instance) in zip(results, PIPED_INSTANCES)` loop of
`get_audio_url`: first result that is truthy, has an `audioStreams` key,
and whose `audioStreams` list is non-empty; yields its first audio variant
and the originating instance. -/
def scanAudio : List (Option StreamsData) → List String → Option (AudioStream × String)
  | r :: rs, inst :: insts =>
    match r with
    | some d =>
      if d.truthy then
        match d.audioStreams with
        | some (a :: _) => some (a, inst)
        | _ => scanAudio rs insts
      else scanAudio rs insts
    | none => scanAudio rs insts
  | _, _ => none

/-- The `for (result, instance) in zip(results, PIPED_INSTANCES)` loop of
`get_stream_urls`: first result that is truthy (`if result:`), returned
whole with its originating instance. -/
def scanStreams : List (Option StreamsData) → List String → Option (StreamsData × String)
  | r :: rs, inst :: insts =>
    match r with
    | some d => if d.truthy then some (d, inst) else scanStreams rs insts
    | none => scanStreams rs insts
  | _, _ => none

/-- The view function of `GET /api/audio` (`get_audio_url`), with the
fetch outcomes of `fetch_streams_from_instances(video_id)` — one per
registry entry, in registration order — passed in as data. `videoId` is
the query parameter (`request.args.get`), `none` when absent. -/
def get_audio_url (videoId : Option String) (results : List (Option StreamsData)) :
    HttpResponse :=
  match videoId with
  | none => ⟨400, ApiBody.errMsg "Missing videoId parameter"⟩
  | some _ =>
    match scanAudio results PIPED_INSTANCES with
    | some (a, inst) => ⟨200, ApiBody.audio a.url a.mimeType a.quality inst⟩
    | none => ⟨503, ApiBody.errMsg "Failed to fetch audio URL"⟩

/-- The view function of `GET /api/streams` (`get_stream_urls`), fetch
outcomes passed in as data as in `get_audio_url`. -/
def get_stream_urls (videoId : Option String) (results : List (Option StreamsData)) :
    HttpResponse :=
  match videoId with
  | none => ⟨400, ApiBody.errMsg "Missing videoId parameter"⟩
  | some _ =>
    match scanStreams results PIPED_INSTANCES with
    | some (d, inst) =>
      ⟨200, ApiBody.streams (d.videoStreams.getD []) (d.audioStreams.getD []) inst
        (d.title.getD "") (d.description.getD "") (d.uploader.getD "") (d.uploaderUrl.getD "")⟩
    | none => ⟨503, ApiBody.errMsg "Failed to fetch streams"⟩

/-- `check_instance_health`: outcome of `GET instance/healthcheck` with
`timeout=5`, where `Except.error ()` is any raised exception (network
error, timeout — the bare `except` absorbs everything) and `Except.ok s`
is a completed response with HTTP status `s`. Total: never raises. -/
def check_instance_health (outcome : Except Unit Nat) : Bool :=
  match outcome with
  | Except.ok status => status == 200
  | Except.error _ => false

/-- `working_instances` of `get_working_instance_async`:
`[instance for instance, is_working in zip(PIPED_INSTANCES, results) if is_working]`
where `results = gather(check_instance_health(i) for i in PIPED_INSTANCES)`. -/
def working_instances (outcomes : List (Except Unit Nat)) : List String :=
  ((PIPED_INSTANCES.zip (outcomes.map check_instance_health)).filter (fun p => p.2)).map
    (fun p => p.1)

/-- `get_working_instance_async`:
`random.choice(working_instances) if working_instances else random.choice(PIPED_INSTANCES)`,
with `random.choice` modelled as the uniform seed-indexed pick
`xs.get (seed % xs.length)`. -/
def get_working_instance (outcomes : List (Except Unit Nat)) (seed : Nat) : String :=
  let w := working_instances outcomes
  if hw : w = [] then
    PIPED_INSTANCES.get ⟨seed % PIPED_INSTANCES.length, Nat.mod_lt _ (by decide)⟩
  else
    w.get ⟨seed % w.length, Nat.mod_lt _ (List.length_pos.mpr hw)⟩

/-- The `cache_with_ttl` wrapper as it sits around a query-parameter view
function such as `get_audio_url` or `get_stream_urls`: the view takes no
function arguments (the parameters travel in `request.args`), so the
derived key is the constant `cache_key()`, i.e. `cache_key [] []`. The
view never raises (it catches internally), so its response — success or
error body alike — is stored. -/
def viewCachedCall0 (cache : TTLCache HttpResponse) (view : Unit → HttpResponse)
    (t : Nat) : HttpResponse × TTLCache HttpResponse :=
  match cache.lookup (cache_key [] []) with
  | some (v, e) =>
    if t ≤ e then (v, cache)
    else
      let resp := view ()
      (resp, cache.insertAt (cache_key [] []) resp t)
  | none =>
    let resp := view ()
    (resp, cache.insertAt (cache_key [] []) resp t)

/-- The `cache_with_ttl` wrapper as it sits around a path-parameter view
function such as `get_song_info(video_id)`: Flask invokes the view with
`**view_args`, i.e. one keyword argument named after the route variable,
so the derived key is `cache_key [] [(name, vstr arg)]` — the route
variable's name is part of the key. -/
def viewCachedCallKw (cache : TTLCache HttpResponse) (view : String → HttpResponse)
    (name : String) (arg : String) (t : Nat) : HttpResponse × TTLCache HttpResponse :=
  match cache.lookup (cache_key [] [(name, PyVal.vstr arg)]) with
  | some (v, e) =>
    if t ≤ e then (v, cache)
    else
      let resp := view arg
      (resp, cache.insertAt (cache_key [] [(name, PyVal.vstr arg)]) resp t)
  | none =>
    let resp := view arg
    (resp, cache.insertAt (cache_key [] [(name, PyVal.vstr arg)]) resp t)

/-- `GET /api/audio` as deployed: `cache_with_ttl(streams_cache)` around
`get_audio_url`. -/
def audioEndpoint (cache : TTLCache HttpResponse) (videoId : Option String)
    (results : List (Option StreamsData)) (t : Nat) :
    HttpResponse × TTLCache HttpResponse :=
  viewCachedCall0 cache (fun _ => get_audio_url videoId results) t

/-- The view function of `GET /api/song/video_id` (`get_song_info`): the
YTMusic call `ytmusic.get_song(video_id)` (run through the executor,
`.result()` re-raises) is abstracted as a fallible function `yt`; its
payload is opaque. -/
def get_song_info (yt : String → Except String String) (videoId : String) : HttpResponse :=
  match yt videoId with
  | Except.ok r => ⟨200, ApiBody.ytPayload r⟩
  | Except.error e => ⟨400, ApiBody.errMsgWith e "Invalid video ID"⟩

/-- The view function of `GET /api/album/browse_id` (`get_album_info`),
with `ytmusic.get_album` abstracted as `yt`. -/
def get_album_info (yt : String → Except String String) (browseId : String) : HttpResponse :=
  match yt browseId with
  | Except.ok r => ⟨200, ApiBody.ytPayload r⟩
  | Except.error e => ⟨400, ApiBody.errMsgWith e "Invalid browse ID"⟩

/-- The view function of `GET /api/related/browse_id`
(`get_related_songs`), with `ytmusic.get_song_related` abstracted as
`yt`. -/
def get_related_songs (yt : String → Except String String) (browseId : String) :
    HttpResponse :=
  match yt browseId with
  | Except.ok r => ⟨200, ApiBody.ytPayload r⟩
  | Except.error e => ⟨400, ApiBody.errMsgWith e "Invalid browse ID"⟩

/-- `GET /api/song/<video_id>` as deployed: `cache_with_ttl(song_cache)`
around `get_song_info`, the route variable named `video_id`. -/
def songEndpoint (cache : TTLCache HttpResponse) (yt : String → Except String String)
    (videoId : String) (t : Nat) : HttpResponse × TTLCache HttpResponse :=
  viewCachedCallKw cache (get_song_info yt) "video_id" videoId t

/-- `GET /api/album/<browse_id>` as deployed: `cache_with_ttl(song_cache)`
around `get_album_info`, the route variable named `browse_id` — note the
decorator names `song_cache`, not an album-specific cache. -/
def albumEndpoint (cache : TTLCache HttpResponse) (yt : String → Except String String)
    (browseId : String) (t : Nat) : HttpResponse × TTLCache HttpResponse :=
  viewCachedCallKw cache (get_album_info yt) "browse_id" browseId t

/-- `GET /api/related/<browse_id>` as deployed:
`cache_with_ttl(song_cache)` around `get_related_songs`, the route
variable named `browse_id` — the same cache instance and the same keyword
name as the album endpoint. -/
def relatedEndpoint (cache : TTLCache HttpResponse) (yt : String → Except String String)
    (browseId : String) (t : Nat) : HttpResponse × TTLCache HttpResponse :=
  viewCachedCallKw cache (get_related_songs yt) "browse_id" browseId t

/-- `GET /api/streams` as deployed: `cache_with_ttl(streams_cache)` around
`get_stream_urls` — the same cache instance and the same constant key as
`GET /api/audio`. -/
def streamsEndpoint (cache : TTLCache HttpResponse) (videoId : Option String)
    (results : List (Option StreamsData)) (t : Nat) :
    HttpResponse × TTLCache HttpResponse :=
  viewCachedCall0 cache (fun _ => get_stream_urls videoId results) t

/-- The cached boundary operations of app.py (the routes that carry a
`cache_with_ttl` decorator). -/
inductive OpClass where
  | search | song | artist | playlist | album | lyrics | related
  | moods | moodPlaylists | audio | streams
deriving DecidableEq, Repr, Fintype

/-- The seven module-level `TTLCache` instances of app.py. -/
inductive CacheName where
  | songC | artistC | searchC | streamsC | playlistC | lyricsC | moodC
deriving DecidableEq, Repr, Fintype

/-- Which cache instance each cached route's decorator names
(lines 124, 147, 157, 167, 178, 188, 228, 238, 248, 258, 282 of app.py). -/
def cacheOf : OpClass → CacheName
  | .search => .searchC
  | .song => .songC
  | .artist => .artistC
  | .playlist => .playlistC
  | .album => .songC
  | .lyrics => .lyricsC
  | .related => .songC
  | .moods => .moodC
  | .moodPlaylists => .moodC
  | .audio => .streamsC
  | .streams => .streamsC

/-- The `(maxsize, ttl)` configuration of each cache instance
(lines 20 to 26 of app.py; ttl in seconds). -/
def cacheConfig : CacheName → Nat × Nat
  | .songC => (100, 3600)
  | .artistC => (100, 3600)
  | .searchC => (100, 1800)
  | .streamsC => (100, 300)
  | .playlistC => (50, 1800)
  | .lyricsC => (50, 7200)
  | .moodC => (20, 86400)

/-- Qualification test applied by the `/api/audio` scan
(`result and 'audioStreams' in result and result['audioStreams']`):
present, truthy, with a non-empty `audioStreams` list. -/
def hasAudio (r : Option StreamsData) : Bool :=
  match r with
  | some d =>
    d.truthy &&
      (match d.audioStreams with
       | some (_ :: _) => true
       | _ => false)
  | none => false

/-- Qualification test applied by the `/api/streams` scan (`if result:`):
present and truthy. -/
def isPresent (r : Option StreamsData) : Bool :=
  match r with
  | some d => d.truthy
  | none => false

/-- Test fixture: an audio variant served by the first mirror. -/
def aStreamA : AudioStream := ⟨"urlA", "audio/mp4", "128k"⟩

/-- Test fixture: an audio variant served by the second mirror. -/
def aStreamB : AudioStream := ⟨"urlB", "audio/mp4", "medium"⟩

/-- Test fixture: an audio variant served by the third mirror. -/
def aStreamC : AudioStream := ⟨"urlC", "audio/webm", "low"⟩

/-- Test fixture: a valid descriptor carrying `aStreamA`. -/
def dataA : StreamsData := ⟨some [aStreamA], none, some "titleA", none, none, none⟩

/-- Test fixture: a valid descriptor carrying `aStreamB`. -/
def dataB : StreamsData := ⟨some [aStreamB], some [], some "titleB", none, none, none⟩

/-- Test fixture: a valid descriptor carrying `aStreamC`. -/
def dataC : StreamsData := ⟨some [aStreamC], none, some "titleC", none, none, none⟩

/-- Test fixture: a truthy descriptor (it has a title) whose stream-variant
lists are both empty. -/
def dataNoVariants : StreamsData := ⟨some [], some [], some "bare", none, none, none⟩

/-- Test fixture: fetch outcomes where only the first mirror answers,
with `dataA`. -/
def resultsA : List (Option StreamsData) := [some dataA, none, none, none]

/-- Test fixture: fetch outcomes where only the first mirror answers,
with `dataB`. -/
def resultsB : List (Option StreamsData) := [some dataB, none, none, none]

instance : DecidableEq (Except Unit Nat) := fun a b =>
  match a, b with
  | .ok x, .ok y => if h : x = y then .isTrue (by rw [h]) else .isFalse (by simp [h])
  | .ok _, .error _ => .isFalse (by simp)
  | .error _, .ok _ => .isFalse (by simp)
  | .error x, .error y => .isTrue (by cases x; cases y; rfl)

/-- The entry just inserted for a key is found by a raw lookup of that
key, with expiry `t + ttl`. -/
theorem TTLCache.lookup_insertAt {α : Type} (c : TTLCache α) (k : String) (v : α) (t : Nat) :
    (c.insertAt k v t).lookup k = some (v, t + c.ttl) := by
  unfold TTLCache.insertAt TTLCache.lookup
  rw [List.find?_cons_of_pos _ (by simp)]
  rfl

/-- C2: for every cache and argument set, a wrapped-operation failure on a
cache miss propagates to the caller and stores nothing, so a second
invocation with the same arguments executes the wrapped operation again
(modelled by calling with a fresh operation `g` against the unchanged
cache) rather than replaying a cached error. -/
theorem cachedCall_failure_uncached {α ε : Type} (c : TTLCache α)
    (f g : List PyVal → List (String × PyVal) → Except ε α)
    (args : List PyVal) (kwargs : List (String × PyVal)) (t t₂ : Nat) (e : ε) (r : α)
    (hmiss : c.lookup (cache_key args kwargs) = none)
    (hf : f args kwargs = Except.error e)
    (hg : g args kwargs = Except.ok r) :
    cachedCall c f args kwargs t = (Except.error e, c) ∧
    cachedCall c g args kwargs t₂ =
      (Except.ok r, c.insertAt (cache_key args kwargs) r t₂) := by
  constructor
  · simp [cachedCall, hmiss, hf]
  · simp [cachedCall, hmiss, hg]

/-- C2 witness: a concrete failing call at time 0 propagates `"boom"` and
leaves the cache empty; the retry at time 1 reaches the operation and
succeeds. -/
theorem cachedCall_failure_uncached_witness :
    cachedCall (⟨100, 3600, []⟩ : TTLCache Nat)
        (fun _ _ => Except.error "boom") [PyVal.vstr "X"] [] 0 =
      (Except.error "boom", (⟨100, 3600, []⟩ : TTLCache Nat)) ∧
    cachedCall (⟨100, 3600, []⟩ : TTLCache Nat)
        (fun _ _ => (Except.ok 7 : Except String Nat)) [PyVal.vstr "X"] [] 1 =
      (Except.ok 7,
        TTLCache.insertAt ⟨100, 3600, []⟩ (cache_key [PyVal.vstr "X"] []) 7 1) :=
  cachedCall_failure_uncached ⟨100, 3600, []⟩ _ _ [PyVal.vstr "X"] [] 0 1 "boom" 7 rfl rfl rfl

/-- C8: an entry whose expiry has elapsed is never served — the wrapped
operation is re-executed and its fresh result is stored with the new
expiry `t + ttl`. -/
theorem cachedCall_expired_recomputes {α ε : Type} (c : TTLCache α)
    (f : List PyVal → List (String × PyVal) → Except ε α)
    (args : List PyVal) (kwargs : List (String × PyVal)) (t : Nat) (v : α) (e : Nat) (r : α)
    (hent : c.lookup (cache_key args kwargs) = some (v, e))
    (hexp : e < t)
    (hf : f args kwargs = Except.ok r) :
    cachedCall c f args kwargs t =
      (Except.ok r, c.insertAt (cache_key args kwargs) r t) ∧
    (c.insertAt (cache_key args kwargs) r t).lookup (cache_key args kwargs) =
      some (r, t + c.ttl) := by
  have hnle : ¬ t ≤ e := Nat.not_le.mpr hexp
  constructor
  · simp [cachedCall, hent, hnle, hf]
  · exact TTLCache.lookup_insertAt c _ r t

/-- C8 witness: an entry that expired at time 10, read at time 11, is not
served; the operation result 6 replaces the stale 5 with expiry 311. -/
theorem cachedCall_expired_recomputes_witness :
    cachedCall (⟨100, 300, [(cache_key [PyVal.vstr "X"] [], 5, 10)]⟩ : TTLCache Nat)
        (fun _ _ => (Except.ok 6 : Except String Nat)) [PyVal.vstr "X"] [] 11 =
      (Except.ok 6,
        TTLCache.insertAt ⟨100, 300, [(cache_key [PyVal.vstr "X"] [], 5, 10)]⟩
          (cache_key [PyVal.vstr "X"] []) 6 11) ∧
    (TTLCache.insertAt (⟨100, 300, [(cache_key [PyVal.vstr "X"] [], 5, 10)]⟩ : TTLCache Nat)
        (cache_key [PyVal.vstr "X"] []) 6 11).lookup (cache_key [PyVal.vstr "X"] []) =
      some (6, 311) :=
  cachedCall_expired_recomputes _ _ [PyVal.vstr "X"] [] 11 5 10 6 rfl (by decide) rfl

/-- C9: the cache key is order-normalized for keyword arguments — two
calls whose keyword items are equal as mappings (a permutation of each
other) and whose positional arguments are equal in order derive the same
key, so the second call hits the entry the first call inserted, for any
wrapped operation `g`. -/
theorem cache_key_kwarg_order_normalized (args : List PyVal)
    (k₁ k₂ : List (String × PyVal)) (hp : List.Perm k₁ k₂) :
    cache_key args k₁ = cache_key args k₂ ∧
    (∀ (c : TTLCache Nat) (g : List PyVal → List (String × PyVal) → Except String Nat)
        (v : Nat) (t t₂ : Nat), t₂ ≤ t + c.ttl →
        (cachedCall (c.insertAt (cache_key args k₁) v t) g args k₂ t₂).1 = Except.ok v) := by
  have hsort : sortedKwargs k₁ = sortedKwargs k₂ :=
    List.eq_of_perm_of_sorted
      ((List.perm_insertionSort kwLe k₁).trans
        (hp.trans (List.perm_insertionSort kwLe k₂).symm))
      (List.sorted_insertionSort kwLe k₁) (List.sorted_insertionSort kwLe k₂)
  have hkey : cache_key args k₁ = cache_key args k₂ := by
    unfold cache_key
    rw [hsort]
  refine ⟨hkey, ?_⟩
  intro c g v t t₂ ht
  have hl : (c.insertAt (cache_key args k₁) v t).lookup (cache_key args k₂) =
      some (v, t + c.ttl) := by
    rw [← hkey]
    exact TTLCache.lookup_insertAt c _ v t
  simp [cachedCall, hl, ht]

/-- C9 witness: the keys of the keyword sets corresponding to
`{a:1, b:2}` and `{b:2, a:1}` coincide. -/
theorem cache_key_kwarg_order_normalized_witness :
    cache_key [] [("a", PyVal.vint 1), ("b", PyVal.vint 2)] =
      cache_key [] [("b", PyVal.vint 2), ("a", PyVal.vint 1)] :=
  (cache_key_kwarg_order_normalized [] _ _
    (List.Perm.swap ("b", PyVal.vint 2) ("a", PyVal.vint 1) [])).1

/-- A non-qualifying result is skipped by the `/api/audio` scan. -/
theorem scanAudio_cons_skip (x : Option StreamsData) (rs : List (Option StreamsData))
    (i : String) (is : List String) (hx : hasAudio x = false) :
    scanAudio (x :: rs) (i :: is) = scanAudio rs is := by
  cases x with
  | none => simp [scanAudio]
  | some d =>
    cases htr : d.truthy with
    | false => simp [scanAudio, htr]
    | true =>
      cases has : d.audioStreams with
      | none => simp [scanAudio, htr, has]
      | some l =>
        cases l with
        | nil => simp [scanAudio, htr, has]
        | cons b bs =>
          exfalso
          simp [hasAudio, htr, has] at hx

/-- The `/api/audio` scan yields the first qualifying result's first audio
variant, paired with the instance at the same position. -/
theorem scanAudio_eq (front rest : List (Option StreamsData)) (insts : List String)
    (d : StreamsData) (a : AudioStream) (tl : List AudioStream)
    (hfront : ∀ x ∈ front, hasAudio x = false)
    (hlen : front.length < insts.length)
    (hd : d.audioStreams = some (a :: tl)) :
    scanAudio (front ++ some d :: rest) insts =
      some (a, insts.get ⟨front.length, hlen⟩) := by
  induction front generalizing insts with
  | nil =>
    cases insts with
    | nil => simp at hlen
    | cons i is =>
      have htr : d.truthy = true := by simp [StreamsData.truthy, hd]
      simp [scanAudio, htr, hd]
  | cons x front ih =>
    cases insts with
    | nil => simp at hlen
    | cons i is =>
      rw [List.cons_append,
        scanAudio_cons_skip x _ i is (hfront x (List.mem_cons_self x front)),
        ih is (fun y hy => hfront y (List.mem_cons_of_mem x hy))
          (Nat.lt_of_succ_lt_succ (by simpa using hlen))]
      simp [List.get_cons_succ]

/-- A non-present result is skipped by the `/api/streams` scan. -/
theorem scanStreams_cons_skip (x : Option StreamsData) (rs : List (Option StreamsData))
    (i : String) (is : List String) (hx : isPresent x = false) :
    scanStreams (x :: rs) (i :: is) = scanStreams rs is := by
  cases x with
  | none => simp [scanStreams]
  | some d =>
    have htr : d.truthy = false := by simpa [isPresent] using hx
    simp [scanStreams, htr]

/-- The `/api/streams` scan yields the first present result, whole, paired
with the instance at the same position. -/
theorem scanStreams_eq (front rest : List (Option StreamsData)) (insts : List String)
    (d : StreamsData)
    (hfront : ∀ x ∈ front, isPresent x = false)
    (hlen : front.length < insts.length)
    (htr : d.truthy = true) :
    scanStreams (front ++ some d :: rest) insts =
      some (d, insts.get ⟨front.length, hlen⟩) := by
  induction front generalizing insts with
  | nil =>
    cases insts with
    | nil => simp at hlen
    | cons i is => simp [scanStreams, htr]
  | cons x front ih =>
    cases insts with
    | nil => simp at hlen
    | cons i is =>
      rw [List.cons_append,
        scanStreams_cons_skip x _ i is (hfront x (List.mem_cons_self x front)),
        ih is (fun y hy => hfront y (List.mem_cons_of_mem x hy))
          (Nat.lt_of_succ_lt_succ (by simpa using hlen))]
      simp [List.get_cons_succ]

/-- If no result is present, the `/api/streams` scan yields nothing. -/
theorem scanStreams_none (results : List (Option StreamsData)) (insts : List String)
    (h : ∀ x ∈ results, isPresent x = false) :
    scanStreams results insts = none := by
  induction results generalizing insts with
  | nil => cases insts <;> rfl
  | cons x rs ih =>
    cases insts with
    | nil => rfl
    | cons i is =>
      rw [scanStreams_cons_skip x rs i is (h x (List.mem_cons_self x rs))]
      exact ih is (fun y hy => h y (List.mem_cons_of_mem x hy))

/-- C3: resolve-single-stream, on a fixed set of per-instance fetch
outcomes (listed in registration order, as `asyncio.gather` guarantees
independently of completion order), returns the URL, MIME type and
quality of the first audio variant of the first instance in registration
order whose result is present with a non-empty audio-variant list, plus
that instance's identifier. -/
theorem get_audio_url_first_qualifying (vid : String)
    (front rest : List (Option StreamsData)) (d : StreamsData) (a : AudioStream)
    (tl : List AudioStream)
    (hfront : ∀ x ∈ front, hasAudio x = false)
    (hlen : front.length < PIPED_INSTANCES.length)
    (hd : d.audioStreams = some (a :: tl)) :
    get_audio_url (some vid) (front ++ some d :: rest) =
      ⟨200, ApiBody.audio a.url a.mimeType a.quality
        (PIPED_INSTANCES.get ⟨front.length, hlen⟩)⟩ := by
  simp [get_audio_url, scanAudio_eq front rest PIPED_INSTANCES d a tl hfront hlen hd]

/-- C3 witness: the spec's scenario — the first instance times out, the
second and third both answer with valid descriptors — yields the second
instance's variant, never the third's. -/
theorem get_audio_url_first_qualifying_witness :
    get_audio_url (some "vid") [none, some dataB, some dataC, none] =
      ⟨200, ApiBody.audio "urlB" "audio/mp4" "medium"
        "https://piped-api.privacy.com.de"⟩ :=
  get_audio_url_first_qualifying "vid" [none] [some dataC, none] dataB aStreamB []
    (by decide) (by decide) rfl

/-- C4 counterexample: a first instance answering a truthy descriptor with
empty audio- and video-variant lists is returned as-is by
resolve-full-streams (the code checks only `if result:`), even though a
later instance holds a usable variant; in particular the response is 200,
not the 503 the claim requires when no present result contains a usable
variant at the scanned position. -/
theorem get_stream_urls_variantless_counterexample :
    get_stream_urls (some "vid") [some dataNoVariants, some dataB, none, none] =
      ⟨200, ApiBody.streams [] [] "https://pipedapi.nosebs.ru" "bare" "" "" ""⟩ ∧
    (200 : Nat) ≠ 503 := by
  exact ⟨rfl, by decide⟩

/-- C4 amended: resolve-full-streams returns the full descriptor of the
first instance in registration order whose result is present and truthy,
regardless of whether it contains any usable stream variant; it reports
503 exactly when no result is present. -/
theorem get_stream_urls_first_present :
    (∀ (vid : String) (front rest : List (Option StreamsData)) (d : StreamsData)
        (hlen : front.length < PIPED_INSTANCES.length),
        (∀ x ∈ front, isPresent x = false) → d.truthy = true →
        get_stream_urls (some vid) (front ++ some d :: rest) =
          ⟨200, ApiBody.streams (d.videoStreams.getD []) (d.audioStreams.getD [])
            (PIPED_INSTANCES.get ⟨front.length, hlen⟩) (d.title.getD "")
            (d.description.getD "") (d.uploader.getD "") (d.uploaderUrl.getD "")⟩) ∧
    (∀ (vid : String) (results : List (Option StreamsData)),
        (∀ x ∈ results, isPresent x = false) →
        get_stream_urls (some vid) results =
          ⟨503, ApiBody.errMsg "Failed to fetch streams"⟩) := by
  constructor
  · intro vid front rest d hlen hfront htr
    simp [get_stream_urls, scanStreams_eq front rest PIPED_INSTANCES d hfront hlen htr]
  · intro vid results h
    simp [get_stream_urls, scanStreams_none results PIPED_INSTANCES h]

/-- C4 witness: with only the second instance present, its full descriptor
is returned; with no instance present, the response is 503. -/
theorem get_stream_urls_first_present_witness :
    get_stream_urls (some "vid") [none, some dataB, none, none] =
      ⟨200, ApiBody.streams [] [aStreamB] "https://piped-api.privacy.com.de"
        "titleB" "" "" ""⟩ ∧
    get_stream_urls (some "vid") [none, none, none, none] =
      ⟨503, ApiBody.errMsg "Failed to fetch streams"⟩ := by
  constructor
  · exact get_stream_urls_first_present.1 "vid" [none] [none, none] dataB
      (by decide) (by decide) rfl
  · exact get_stream_urls_first_present.2 "vid" [none, none, none, none] (by decide)

/-- The prober's zip–filter–map pipeline equals a filterMap keeping
exactly the instances whose healthcheck completed with status 200. -/
theorem zip_health_filter (l : List String) (os : List (Except Unit Nat)) :
    ((l.zip (os.map check_instance_health)).filter (fun p => p.2)).map (fun p => p.1) =
      (l.zip os).filterMap
        (fun p => if p.2 = Except.ok 200 then some p.1 else none) := by
  induction l generalizing os with
  | nil => simp
  | cons s l ih =>
    cases os with
    | nil => simp
    | cons o os =>
      cases o with
      | ok st =>
        by_cases h : st = 200
        · subst h
          simp [check_instance_health, ih]
        · have hb : (st == 200) = false := by simpa using h
          have hne : ¬ ((Except.ok st : Except Unit Nat) = Except.ok 200) := by simp [h]
          simp [check_instance_health, hb, hne, ih]
      | error u =>
        have hne : ¬ ((Except.error u : Except Unit Nat) = Except.ok 200) := by simp
        simp [check_instance_health, hne, ih]

/-- C6 counterexample: a healthcheck completing with status 204 — a 2xx
success — is classified unhealthy, because the code tests `status == 200`
rather than the 2xx range the claim states. -/
theorem health_204_unhealthy :
    check_instance_health (Except.ok 204) = false ∧ 200 ≤ 204 ∧ 204 < 300 := by
  decide

/-- C6 amended: the per-instance check never raises (it is a total
function of the request outcome; the bare `except` absorbs every error and
timeout) and classifies an instance healthy exactly when its healthcheck
completes with status exactly 200; the prober returns the instances so
classified, in registry order. -/
theorem health_classification :
    (∀ o : Except Unit Nat, check_instance_health o = true ↔ o = Except.ok 200) ∧
    (∀ outcomes : List (Except Unit Nat),
      working_instances outcomes =
        (PIPED_INSTANCES.zip outcomes).filterMap
          (fun p => if p.2 = Except.ok 200 then some p.1 else none)) := by
  constructor
  · intro o
    cases o with
    | ok s => simp [check_instance_health]
    | error u => simp [check_instance_health]
  · intro outcomes
    exact zip_health_filter PIPED_INSTANCES outcomes

/-- C6 witness: status 200 is healthy; of the outcomes
[200, error, 500, 200] exactly the first and fourth instances are
returned. -/
theorem health_classification_witness :
    check_instance_health (Except.ok 200) = true ∧
    working_instances [Except.ok 200, Except.error (), Except.ok 500, Except.ok 200] =
      ["https://pipedapi.nosebs.ru", "https://api.piped.yt"] := by
  constructor
  · exact (health_classification.1 (Except.ok 200)).mpr rfl
  · rw [health_classification.2]
    decide

/-- Every instance the prober returns is a member of the registry. -/
theorem working_instances_subset (outcomes : List (Except Unit Nat)) :
    ∀ x ∈ working_instances outcomes, x ∈ PIPED_INSTANCES := by
  intro x hx
  obtain ⟨⟨a, b⟩, hp, rfl⟩ := List.mem_map.1 hx
  exact (List.of_mem_zip (List.mem_filter.1 hp).1).1

/-- C7: probe-and-select-instance is total (the registry is a non-empty
constant) — it returns a member of the healthy subset when that subset is
non-empty, and a member of the full registry always, choice itself being
the uniform seed-indexed pick modelling `random.choice`. -/
theorem probe_and_select_total :
    ∀ (outcomes : List (Except Unit Nat)) (seed : Nat),
      get_working_instance outcomes seed ∈ PIPED_INSTANCES ∧
      (working_instances outcomes ≠ [] →
        get_working_instance outcomes seed ∈ working_instances outcomes) := by
  intro outcomes seed
  by_cases hw : working_instances outcomes = []
  · constructor
    · simp only [get_working_instance]
      rw [dif_pos hw]
      exact List.get_mem _ _ _
    · intro hne
      exact absurd hw hne
  · have hmem : get_working_instance outcomes seed ∈ working_instances outcomes := by
      simp only [get_working_instance]
      rw [dif_neg hw]
      exact List.get_mem _ _ _
    exact ⟨working_instances_subset outcomes _ hmem, fun _ => hmem⟩

/-- C7 witness: with one healthy instance and seed 7, the selected
instance lies in the healthy subset. -/
theorem probe_and_select_total_witness :
    get_working_instance [Except.error (), Except.error (), Except.ok 200, Except.error ()] 7 ∈
      working_instances [Except.error (), Except.error (), Except.ok 200, Except.error ()] :=
  (probe_and_select_total
    [Except.error (), Except.error (), Except.ok 200, Except.error ()] 7).2 (by decide)

/-- C5 counterexample: the song and album lookups are distinct boundary
operations whose decorators name the same cache instance (`song_cache`),
refuting "no two distinct boundary operations share a cache instance";
and "an entry inserted by one operation class is never served in answer
to another" is refuted concretely by the album and related-songs lookups,
which share `song_cache` and both receive their path parameter as the
keyword `browse_id`, so their keys coincide: the entry the album lookup
inserts for browse id "X" is served verbatim to a later related-songs
lookup for "X" — which differs from what the related-songs view would
compute. -/
theorem song_cache_shared_counterexample :
    (cacheOf OpClass.song = cacheOf OpClass.album ∧ OpClass.song ≠ OpClass.album) ∧
    ((relatedEndpoint
        (albumEndpoint ⟨100, 3600, []⟩ (fun _ => Except.ok "albumdata") "X" 0).2
        (fun _ => Except.ok "relateddata") "X" 1).1 =
      ⟨200, ApiBody.ytPayload "albumdata"⟩ ∧
      (⟨200, ApiBody.ytPayload "albumdata"⟩ : HttpResponse) ≠
        get_related_songs (fun _ => Except.ok "relateddata") "X") := by
  exact ⟨⟨rfl, by decide⟩, rfl, by decide⟩

/-- C5 amended: each of the seven cache instances has its own max-size and
TTL, but the operations do not own private caches: song, album and
related-songs lookups all use `song_cache`; mood categories and mood
playlists share `mood_cache`; single-stream and full-streams resolution
share `streams_cache`; only search, artist, playlist and lyrics own their
cache exclusively. Where the sharing operations also derive coinciding
keys, entries cross-serve: album and related-songs collide on the
`browse_id` keyword (counterexample above), and the full-streams endpoint
is answered with the response the audio endpoint cached under the shared
constant key (final conjunct). -/
theorem cache_ownership_amended :
    (cacheOf OpClass.song = CacheName.songC ∧ cacheOf OpClass.album = CacheName.songC ∧
    cacheOf OpClass.related = CacheName.songC ∧
    cacheOf OpClass.moods = CacheName.moodC ∧
    cacheOf OpClass.moodPlaylists = CacheName.moodC ∧
    cacheOf OpClass.audio = CacheName.streamsC ∧
    cacheOf OpClass.streams = CacheName.streamsC ∧
    (∀ o, cacheOf o = CacheName.searchC ↔ o = OpClass.search) ∧
    (∀ o, cacheOf o = CacheName.artistC ↔ o = OpClass.artist) ∧
    (∀ o, cacheOf o = CacheName.playlistC ↔ o = OpClass.playlist) ∧
    (∀ o, cacheOf o = CacheName.lyricsC ↔ o = OpClass.lyrics)) ∧
    (streamsEndpoint
        (audioEndpoint ⟨100, 300, []⟩ (some "vidA") resultsA 0).2
        (some "vidA") resultsA 1).1 =
      ⟨200, ApiBody.audio "urlA" "audio/mp4" "128k" "https://pipedapi.nosebs.ru"⟩ := by
  exact ⟨by decide, rfl⟩

/-- C1 (code bug evaluated): the `/api/audio` view takes no function
arguments — `videoId` travels in `request.args` — so every invocation
derives the constant key `"()[]"`; a request for video B within the TTL
of a cached request for video A is answered with A's audio URL, although
a fresh resolution for B would return B's URL. -/
theorem audio_endpoint_constant_key :
    cache_key [] [] = "()[]" ∧
    (audioEndpoint
        (audioEndpoint ⟨100, 300, []⟩ (some "vidA") resultsA 0).2
        (some "vidB") resultsB 1).1 =
      ⟨200, ApiBody.audio "urlA" "audio/mp4" "128k" "https://pipedapi.nosebs.ru"⟩ ∧
    get_audio_url (some "vidB") resultsB =
      ⟨200, ApiBody.audio "urlB" "audio/mp4" "medium" "https://pipedapi.nosebs.ru"⟩ := by
  exact ⟨rfl, rfl, rfl⟩

/-- C10 (code bug evaluated): the view itself answers a missing `videoId`
with the 400 error before any fetch, but the deployed endpoint caches
under the constant key, so an invocation with `videoId` absent that
follows a cached successful invocation is answered with the cached 200
response instead of the 400 error. -/
theorem audio_missing_videoId_bypassed :
    get_audio_url none resultsA = ⟨400, ApiBody.errMsg "Missing videoId parameter"⟩ ∧
    (audioEndpoint
        (audioEndpoint ⟨100, 300, []⟩ (some "vidA") resultsA 0).2
        none resultsA 1).1 =
      ⟨200, ApiBody.audio "urlA" "audio/mp4" "128k" "https://pipedapi.nosebs.ru"⟩ := by
  exact ⟨rfl, rfl⟩

end Ytmapi
